import Mathlib

/-!
Shallow embedding of `src/option_strategy_plotter_v2.py` (the
option-strategy visualizer): the leg model (`Option` and `Stock` classes),
the aggregation engine (`plot_strategy`, whose grid is
`np.linspace(s_min, s_max, 1001)`), the CSV save/load handlers, and the
remove-leg button handler.  Real numbers are modelled by `ℚ` so that every
definition is executable and decidable on concrete inputs.
-/

/-- The Python `Option` class (renamed: `Option` is taken by Lean's core).
Fields mirror `Option.__init__`: `position`, `option_type`, `strike`,
`premium`. -/
structure OptionLeg where
  position : String
  option_type : String
  strike : ℚ
  premium : ℚ
  deriving DecidableEq, Repr

/-- Method `Option.payoff`:
`intrinsic = np.maximum(S - strike, 0)` if the type is `"call"`, else
`np.maximum(strike - S, 0)`; the result is `intrinsic - premium` when
`position == "long"`, else `-intrinsic + premium`. -/
def OptionLeg.payoff (o : OptionLeg) (S : ℚ) : ℚ :=
  let intrinsic := if o.option_type = "call" then max (S - o.strike) 0 else max (o.strike - S) 0
  if o.position = "long" then intrinsic - o.premium else -intrinsic + o.premium

/-- The Python `Stock` class: `position` and `entry_price`. -/
structure Stock where
  position : String
  entry_price : ℚ
  deriving DecidableEq, Repr

/-- Method `Stock.payoff`: `S - entry_price` if `position == "buy"`, else
`entry_price - S`. -/
def Stock.payoff (st : Stock) (S : ℚ) : ℚ :=
  if st.position = "buy" then S - st.entry_price else st.entry_price - S

/-- A leg of the strategy: the elements of the Python list
`options + stocks` iterated by `plot_strategy`. -/
inductive Leg
  | opt : OptionLeg → Leg
  | stk : Stock → Leg
  deriving DecidableEq, Repr

/-- Dispatch of `leg.payoff(S)` over the two classes. -/
def Leg.payoff : Leg → ℚ → ℚ
  | .opt o, S => o.payoff S
  | .stk s, S => s.payoff S

/-- The call `np.linspace(s_min, s_max, num)` (with `endpoint=True`,
numpy's default, as on line 40 of the source): `num` evenly spaced samples
from `s_min` to `s_max`; the `i`-th sample is
`s_min + i * (s_max - s_min) / (num - 1)`.  numpy special-cases `num = 1`,
returning the single sample `[s_min]` without error. -/
def linspace (s_min s_max : ℚ) (num : ℕ) : List ℚ :=
  if num = 1 then [s_min]
  else (List.range num).map fun i : ℕ => s_min + (i : ℚ) * (s_max - s_min) / ((num : ℚ) - 1)

/-- The accumulation loop of `plot_strategy`:
`net = np.zeros_like(S); for leg in legs: net += leg.payoff(S)`. -/
def netCurve (legs : List Leg) (grid : List ℚ) : List ℚ :=
  legs.foldl (fun net leg => List.zipWith (fun a b => a + b) net (grid.map leg.payoff))
    (grid.map fun _ => 0)

/-- Function `plot_strategy(options, stocks, s_min, s_max)` restricted to
its data output `(S, net)`: `S = np.linspace(s_min, s_max, 1001)`, `net` the
elementwise sum of `leg.payoff(S)` over `options + stocks` (the chart
drawing is presentation only and returns no data). -/
def plot_strategy (options : List OptionLeg) (stocks : List Stock) (s_min s_max : ℚ) :
    List ℚ × List ℚ :=
  let S := linspace s_min s_max 1001
  (S, netCurve (options.map Leg.opt ++ stocks.map Leg.stk) S)

/-! ## Serialization (Save / Load button handlers) -/

/-- A CSV cell in a numeric column: `some q` when the cell's text parses
as the rational `q`, `none` when it does not parse as a number (such as
the text `abc`, on which Python's `float` raises `ValueError`). -/
abbrev Cell : Type := Option ℚ

/-- Python's `float(cell)`: succeeds exactly on parseable numeric text. -/
def pyFloat : Cell → Except Unit ℚ
  | some q => .ok q
  | none => .error ()

/-- One row of the strategy CSV, columns in the file's order:
`type`, `position`, `option_type`, `strike_or_entry`, `premium`. -/
structure Row where
  type : String
  position : String
  option_type : String
  strike_or_entry : Cell
  premium : Cell
  deriving DecidableEq

/-- The row the Save handler writes for an option:
`["option", opt.position, opt.option_type, opt.strike, opt.premium]`. -/
def optionRow (o : OptionLeg) : Row :=
  ⟨"option", o.position, o.option_type, some o.strike, some o.premium⟩

/-- The row the Save handler writes for a stock:
`["stock", stk.position, "", stk.entry_price, 0]`. -/
def stockRow (s : Stock) : Row :=
  ⟨"stock", s.position, "", some s.entry_price, some 0⟩

/-- The Save handler's dataframe: all option rows, then all stock rows. -/
def serialize (options : List OptionLeg) (stocks : List Stock) : List Row :=
  options.map optionRow ++ stocks.map stockRow

/-- The in-memory portfolio: `st.session_state["options"]` and
`st.session_state["stocks"]`. -/
abbrev Portfolio : Type := List OptionLeg × List Stock

/-- One iteration of the Load loop body on a row: `if row["type"] ==
"option"` construct an `Option` (whose constructor runs `float` on the
strike and the premium) and append it to the options, `else` construct a
`Stock` from `position` and `strike_or_entry` and append it to the stocks;
`none` means the iteration raised. -/
def applyRow (st : Portfolio) (r : Row) : Option Portfolio :=
  if r.type = "option" then
    match pyFloat r.strike_or_entry, pyFloat r.premium with
    | .ok k, .ok p => some (st.1 ++ [⟨r.position, r.option_type, k, p⟩], st.2)
    | _, _ => none
  else
    match pyFloat r.strike_or_entry with
    | .ok e => some (st.1, st.2 ++ [⟨r.position, e⟩])
    | .error _ => none

/-- The Load handler's `for _, row in df.iterrows()` loop, started from
the freshly cleared state: returns the state held when the loop finishes
or raises, with `true` when it raised. -/
def loadLoop : List Row → Portfolio → Portfolio × Bool
  | [], st => (st, false)
  | r :: rs, st =>
    match applyRow st r with
    | some st2 => loadLoop rs st2
    | none => (st, true)

/-- The whole Load handler: `pd.read_csv` either fails (`none`, the
`except` branch reports the error and the session state is untouched) or
yields rows; then the state is cleared to `([], [])` and the loop runs,
any exception being caught after the partial appends.  Returns the
resulting session state and whether an error was reported. -/
def loadHandler (st : Portfolio) (file : Option (List Row)) : Portfolio × Bool :=
  match file with
  | none => (st, true)
  | some rows => loadLoop rows ([], [])

/-- Deserialization as a fallible function: the rows' legs when the loop
finishes cleanly, an error when any iteration raises. -/
def deserialize (rows : List Row) : Except Unit Portfolio :=
  let r := loadLoop rows ([], [])
  if r.2 then .error () else .ok r.1

/-! ## Remove button handler -/

/-- Python's list-index normalization: a negative index counts from the
end of the list (`i + len`). -/
def pyIndex (len : ℕ) (i : ℤ) : ℤ :=
  if i < 0 then i + len else i

/-- Python's `del lst[i]` on a list: the index is normalized, and the
deletion raises `IndexError` (here `none`) when the normalized index is
out of range. -/
def pyDelete {α : Type} (l : List α) (i : ℤ) : Option (List α) :=
  if 0 ≤ pyIndex l.length i ∧ pyIndex l.length i < l.length then
    some (l.eraseIdx (pyIndex l.length i).toNat)
  else none

/-- The Remove button handler: `if remove_idx < len(options): del
options[remove_idx] else: del stocks[remove_idx - len(options)]`;
`none` when the `del` raised `IndexError`. -/
def removeLeg (options : List OptionLeg) (stocks : List Stock) (i : ℤ) :
    Option Portfolio :=
  if i < options.length then
    (pyDelete options i).map fun os => (os, stocks)
  else
    (pyDelete stocks (i - options.length)).map fun ss => (options, ss)

/-! ## Helper lemmas -/

lemma zipWith_add_map (l : List ℚ) (f g : ℚ → ℚ) :
    List.zipWith (fun a b => a + b) (l.map f) (l.map g) = l.map fun x => f x + g x := by
  induction l with
  | nil => rfl
  | cons x xs ih => simp [ih]

lemma netCurve_foldl (legs : List Leg) (grid : List ℚ) (f : ℚ → ℚ) :
    legs.foldl (fun net leg => List.zipWith (fun a b => a + b) net (grid.map leg.payoff))
      (grid.map f)
      = grid.map fun S => f S + (legs.map fun l => l.payoff S).sum := by
  induction legs generalizing f with
  | nil => simp
  | cons leg rest ih =>
    simp only [List.foldl_cons, zipWith_add_map, ih, List.map_cons, List.sum_cons]
    simp [add_assoc]

lemma netCurve_eq (legs : List Leg) (grid : List ℚ) :
    netCurve legs grid = grid.map fun S => (legs.map fun l => l.payoff S).sum := by
  unfold netCurve
  rw [netCurve_foldl legs grid fun _ => 0]
  simp

lemma linspace_length (a b : ℚ) (n : ℕ) : (linspace a b n).length = n := by
  unfold linspace
  split
  · simp [*]
  · rw [List.length_map, List.length_range]

lemma linspace_get (a b : ℚ) {n i : ℕ} (hn : 2 ≤ n) (hi : i < n) :
    (linspace a b n)[i]? = some (a + i * (b - a) / ((n : ℚ) - 1)) := by
  unfold linspace
  rw [if_neg (by omega), List.getElem?_map, List.getElem?_range hi]
  rfl

lemma linspace_first (a b : ℚ) {n : ℕ} (hn : 2 ≤ n) : (linspace a b n)[0]? = some a := by
  rw [linspace_get a b hn (by omega)]
  norm_num

lemma linspace_last (a b : ℚ) {n : ℕ} (hn : 2 ≤ n) :
    (linspace a b n)[n - 1]? = some b := by
  rw [linspace_get a b hn (by omega)]
  have h1 : ((n : ℚ) - 1) ≠ 0 := by
    have h2 : (2 : ℚ) ≤ (n : ℚ) := by exact_mod_cast hn
    linarith
  have h2 : ((n - 1 : ℕ) : ℚ) = (n : ℚ) - 1 := by
    rw [Nat.cast_sub (by omega : 1 ≤ n), Nat.cast_one]
  rw [h2]
  congr 1
  field_simp

/-! ## Claims about the leg model -/

/-- C1: for every price `S` and option leg with strike `K ≥ 0` and premium
`P ≥ 0`, the payoff is `intrinsic - P` for a long leg and `P - intrinsic`
for a short leg, with `intrinsic = max (S - K) 0` for a call and
`max (K - S) 0` for a put; the function is total over all `S`. -/
theorem C1_option_payoff (S K P : ℚ) (hK : 0 ≤ K) (hP : 0 ≤ P) :
    OptionLeg.payoff ⟨"long", "call", K, P⟩ S = max (S - K) 0 - P
    ∧ OptionLeg.payoff ⟨"long", "put", K, P⟩ S = max (K - S) 0 - P
    ∧ OptionLeg.payoff ⟨"short", "call", K, P⟩ S = P - max (S - K) 0
    ∧ OptionLeg.payoff ⟨"short", "put", K, P⟩ S = P - max (K - S) 0 := by
  refine ⟨?_, ?_, ?_, ?_⟩ <;> simp [OptionLeg.payoff] <;> ring

theorem C1_option_payoff_witness :
    (0 : ℚ) ≤ 100 ∧ (0 : ℚ) ≤ 5
    ∧ (OptionLeg.payoff ⟨"long", "call", 100, 5⟩ 90 = max (90 - 100) 0 - 5
       ∧ OptionLeg.payoff ⟨"long", "put", 100, 5⟩ 90 = max (100 - 90) 0 - 5
       ∧ OptionLeg.payoff ⟨"short", "call", 100, 5⟩ 90 = 5 - max (90 - 100) 0
       ∧ OptionLeg.payoff ⟨"short", "put", 100, 5⟩ 90 = 5 - max (100 - 90) 0) :=
  ⟨by norm_num, by norm_num, C1_option_payoff 90 100 5 (by norm_num) (by norm_num)⟩

/-- C10: payoff is total in the direction string and silently falls back
to the opposite branch: an option leg whose position is any string other
than `"long"` (the two direction strings are quantified independently, so
this includes `"buy"`) is evaluated as short (`premium - intrinsic`), and
a stock leg whose position is any string other than `"buy"` (including
`"long"`) is evaluated as sell (`entry_price - S`). -/
theorem C10_direction_fallback (po ps typ : String) (K P e S : ℚ)
    (ho : po ≠ "long") (hs : ps ≠ "buy") :
    OptionLeg.payoff ⟨po, typ, K, P⟩ S
      = P - (if typ = "call" then max (S - K) 0 else max (K - S) 0)
    ∧ Stock.payoff ⟨ps, e⟩ S = e - S := by
  constructor
  · simp only [OptionLeg.payoff, if_neg ho]
    ring
  · simp only [Stock.payoff, if_neg hs]

/-- C2: the net curve of the aggregation engine is the elementwise sum
over the legs (in order) of each leg's payoff at each grid point; the
empty leg sequence yields the all-zero vector of the grid's length with
no error; a stock leg contributes `S - entry_price` when its direction is
`buy` and `entry_price - S` when it is `sell`. -/
theorem C2_net_curve (legs : List Leg) (grid : List ℚ) (options : List OptionLeg)
    (stocks : List Stock) (s_min s_max e S : ℚ) :
    netCurve legs grid = (grid.map fun p => (legs.map fun l => l.payoff p).sum)
    ∧ netCurve [] grid = List.replicate grid.length 0
    ∧ (plot_strategy options stocks s_min s_max).2
        = netCurve (options.map Leg.opt ++ stocks.map Leg.stk) (linspace s_min s_max 1001)
    ∧ Stock.payoff ⟨"buy", e⟩ S = S - e
    ∧ Stock.payoff ⟨"sell", e⟩ S = e - S := by
  refine ⟨netCurve_eq legs grid, ?_, rfl, ?_, ?_⟩
  · rw [netCurve_eq]
    simp
  · simp [Stock.payoff]
  · simp [Stock.payoff]

/-- C3: for every `s_min`, `s_max` and `resolution ≥ 2` the grid has
exactly `resolution` points with
`grid[i] = s_min + i * (s_max - s_min) / (resolution - 1)`; for
`s_min = 0`, `s_max = 200`, `resolution = 1001` the first element is `0`,
the last is `200`, and the length is `1001`. -/
theorem C3_grid (a b : ℚ) (n : ℕ) (hn : 2 ≤ n) :
    (linspace a b n).length = n
    ∧ (∀ i, i < n → (linspace a b n)[i]? = some (a + i * (b - a) / ((n : ℚ) - 1)))
    ∧ (linspace 0 200 1001)[0]? = some 0
    ∧ (linspace 0 200 1001)[1000]? = some 200
    ∧ (linspace 0 200 1001).length = 1001 := by
  refine ⟨linspace_length a b n, fun i hi => linspace_get a b hn hi, ?_, ?_,
    linspace_length 0 200 1001⟩
  · exact linspace_first 0 200 (by norm_num)
  · simpa using linspace_last 0 200 (n := 1001) (by norm_num)

theorem C3_grid_witness :
    2 ≤ 2
    ∧ ((linspace 0 200 2).length = 2
       ∧ (∀ i : ℕ, i < 2 →
            (linspace 0 200 2)[i]? = some (0 + (i : ℚ) * (200 - 0) / (((2 : ℕ) : ℚ) - 1)))
       ∧ (linspace 0 200 1001)[0]? = some 0
       ∧ (linspace 0 200 1001)[1000]? = some 200
       ∧ (linspace 0 200 1001).length = 1001) :=
  ⟨by norm_num, C3_grid 0 200 2 (by norm_num)⟩

/-- C9: grid construction and payoff aggregation are total in `s_min` and
`s_max`, including `s_max ≤ s_min`: the grid always has exactly `1001`
points, its first element is `s_min` and its last is `s_max`, and the net
curve over that grid is always produced (with the same length `1001`). -/
theorem C9_totality (s_min s_max : ℚ) (options : List OptionLeg) (stocks : List Stock) :
    (plot_strategy options stocks s_min s_max).1.length = 1001
    ∧ (plot_strategy options stocks s_min s_max).1[0]? = some s_min
    ∧ (plot_strategy options stocks s_min s_max).1[1000]? = some s_max
    ∧ (plot_strategy options stocks s_min s_max).2.length = 1001 := by
  simp only [plot_strategy]
  refine ⟨linspace_length s_min s_max 1001, linspace_first s_min s_max (by norm_num), ?_, ?_⟩
  · simpa using linspace_last s_min s_max (n := 1001) (by norm_num)
  · rw [netCurve_eq, List.length_map, linspace_length]

theorem C10_direction_fallback_witness :
    ("buy" ≠ "long") ∧ ("long" ≠ "buy")
    ∧ (OptionLeg.payoff ⟨"buy", "call", 100, 5⟩ 120
         = 5 - (if "call" = "call" then max (120 - 100) 0 else max (100 - 120) 0)
       ∧ Stock.payoff ⟨"long", 50⟩ 120 = 50 - 120) :=
  ⟨by decide, by decide,
   C10_direction_fallback "buy" "long" "call" 100 5 50 120 (by decide) (by decide)⟩

/-! ## Claims about serialization and the Load handler -/

lemma applyRow_optionRow (st : Portfolio) (o : OptionLeg) :
    applyRow st (optionRow o) = some (st.1 ++ [o], st.2) := by
  simp [applyRow, optionRow, pyFloat]

lemma applyRow_stockRow (st : Portfolio) (s : Stock) :
    applyRow st (stockRow s) = some (st.1, st.2 ++ [s]) := by
  simp [applyRow, stockRow, pyFloat]

lemma loadLoop_optionRows (opts : List OptionLeg) (rest : List Row)
    (os : List OptionLeg) (ss : List Stock) :
    loadLoop (opts.map optionRow ++ rest) (os, ss) = loadLoop rest (os ++ opts, ss) := by
  induction opts generalizing os with
  | nil => simp
  | cons o t ih =>
    rw [List.map_cons, List.cons_append]
    show (match applyRow (os, ss) (optionRow o) with
          | some st2 => loadLoop (t.map optionRow ++ rest) st2
          | none => ((os, ss), true)) = _
    rw [applyRow_optionRow]
    show loadLoop (t.map optionRow ++ rest) (os ++ [o], ss) = _
    rw [ih (os ++ [o])]
    simp

lemma loadLoop_stockRows (stks : List Stock) (rest : List Row)
    (os : List OptionLeg) (ss : List Stock) :
    loadLoop (stks.map stockRow ++ rest) (os, ss) = loadLoop rest (os, ss ++ stks) := by
  induction stks generalizing ss with
  | nil => simp
  | cons s t ih =>
    rw [List.map_cons, List.cons_append]
    show (match applyRow (os, ss) (stockRow s) with
          | some st2 => loadLoop (t.map stockRow ++ rest) st2
          | none => ((os, ss), true)) = _
    rw [applyRow_stockRow]
    show loadLoop (t.map stockRow ++ rest) (os, ss ++ [s]) = _
    rw [ih (ss ++ [s])]
    simp

/-- C4: deserializing the serialization of any portfolio of options and
stocks with finite non-negative numeric attributes reconstructs an equal
portfolio: same leg count, same order, same attribute values (exactly, in
the rational model of the storage format's numbers). -/
theorem C4_roundtrip (options : List OptionLeg) (stocks : List Stock)
    (hK : ∀ o ∈ options, 0 ≤ o.strike ∧ 0 ≤ o.premium)
    (hE : ∀ s ∈ stocks, 0 ≤ s.entry_price) :
    deserialize (serialize options stocks) = .ok (options, stocks) := by
  unfold deserialize serialize
  rw [show stocks.map stockRow = stocks.map stockRow ++ [] by simp,
    loadLoop_optionRows, loadLoop_stockRows]
  rfl

theorem C4_roundtrip_witness :
    (∀ o ∈ [(⟨"long", "call", 100, 5⟩ : OptionLeg)], 0 ≤ o.strike ∧ 0 ≤ o.premium)
    ∧ (∀ s ∈ [(⟨"buy", 50⟩ : Stock)], 0 ≤ s.entry_price)
    ∧ deserialize (serialize [⟨"long", "call", 100, 5⟩] [⟨"buy", 50⟩])
        = .ok ([⟨"long", "call", 100, 5⟩], [⟨"buy", 50⟩]) :=
  ⟨by decide, by decide,
   C4_roundtrip [⟨"long", "call", 100, 5⟩] [⟨"buy", 50⟩] (by decide) (by decide)⟩

/-- C5 counterexample: a row with `type = "bond"` (and well-formed numeric
fields) does NOT make deserialization fail — the Load loop's `else`
branch constructs a `Stock("buy", 10)` from it, so a leg is built from
the unrecognized row and no error of any kind is raised. -/
theorem C5_counterexample :
    deserialize [⟨"bond", "buy", "", some 10, some 0⟩] = .ok ([], [⟨"buy", 10⟩]) := by
  rfl

/-- C5 amended: a serialized row whose `type` is not `"option"`
(including `"bond"`) is deserialized as a stock leg built from its
`position` and `strike_or_entry` fields; `position` and `option_type`
values outside the recognized enumerations are accepted unchecked (an
option leg is still constructed); deserialization fails only when a
numeric field used by the row's branch cannot be parsed as a real number,
and then with a generic error, not a dedicated `MalformedRecord`. -/
theorem C5_amended (t pos typ : String) (e p : ℚ) (ht : t ≠ "option") :
    deserialize [⟨t, pos, typ, some e, some p⟩] = .ok ([], [⟨pos, e⟩])
    ∧ deserialize [⟨t, pos, typ, none, some p⟩] = .error ()
    ∧ deserialize [⟨"option", pos, typ, some e, some p⟩] = .ok ([⟨pos, typ, e, p⟩], [])
    ∧ deserialize [⟨"option", pos, typ, none, some p⟩] = .error () := by
  refine ⟨?_, ?_, ?_, ?_⟩ <;>
    simp [deserialize, loadLoop, applyRow, pyFloat, ht]

theorem C5_amended_witness :
    ("bond" ≠ "option")
    ∧ (deserialize [⟨"bond", "hold", "x", some 10, some 0⟩] = .ok ([], [⟨"hold", 10⟩])
       ∧ deserialize [⟨"bond", "hold", "x", none, some 0⟩] = .error ()
       ∧ deserialize [⟨"option", "hold", "x", some 10, some 0⟩]
           = .ok ([⟨"hold", "x", 10, 0⟩], [])
       ∧ deserialize [⟨"option", "hold", "x", none, some 0⟩] = .error ()) :=
  ⟨by decide, C5_amended "bond" "hold" "x" 10 0 (by decide)⟩

lemma applyRow_of_bad_strike (st : Portfolio) (r : Row) (h : r.strike_or_entry = none) :
    applyRow st r = none := by
  unfold applyRow
  rw [h]
  split <;> rfl

lemma loadLoop_append (xs ys : List Row) (st : Portfolio) :
    loadLoop (xs ++ ys) st =
      if (loadLoop xs st).2 then loadLoop xs st else loadLoop ys (loadLoop xs st).1 := by
  induction xs generalizing st with
  | nil => simp [loadLoop]
  | cons r rs ih =>
    cases h : applyRow st r with
    | some st2 =>
      simp only [List.cons_append, loadLoop, h]
      exact ih st2
    | none =>
      simp only [List.cons_append, loadLoop, h]
      simp

/-- C6 counterexample: the portfolio holds one option; loading a file
whose first row is a valid stock row and whose second row is an option
row with an unparseable strike fails (the error flag is reported), yet
the portfolio afterwards is `([], [Stock("buy", 50)])` — the pre-load
portfolio was cleared and partially overwritten, not left as it was. -/
theorem C6_counterexample :
    loadHandler ([⟨"long", "call", 100, 5⟩], [])
        (some [⟨"stock", "buy", "", some 50, some 0⟩, ⟨"option", "long", "call", none, some 1⟩])
      = (([], [⟨"buy", 50⟩]), true)
    ∧ (([], [⟨"buy", 50⟩]) : Portfolio) ≠ ([⟨"long", "call", 100, 5⟩], []) := by
  constructor
  · rfl
  · decide

/-- C6 amended: a failed load always reports the failure to the caller,
but the pre-load portfolio survives only when reading the file itself
fails; when deserialization fails at some row, the portfolio has already
been cleared and replaced by the legs built from the rows preceding the
failing one (a partial overwrite), whatever it previously held. -/
theorem C6_amended (st : Portfolio) (good : List Row) (bad : Row) (rest : List Row)
    (hgood : (loadLoop good ([], [])).2 = false) (hbad : bad.strike_or_entry = none) :
    loadHandler st none = (st, true)
    ∧ loadHandler st (some (good ++ bad :: rest)) = ((loadLoop good ([], [])).1, true) := by
  refine ⟨rfl, ?_⟩
  show loadLoop (good ++ bad :: rest) ([], []) = _
  rw [loadLoop_append, hgood, if_neg (by simp)]
  show (match applyRow (loadLoop good ([], [])).1 bad with
        | some st2 => loadLoop rest st2
        | none => ((loadLoop good ([], [])).1, true)) = _
  rw [applyRow_of_bad_strike _ bad hbad]

theorem C6_amended_witness :
    (loadLoop [⟨"stock", "buy", "", some 50, some 0⟩] ([], [])).2 = false
    ∧ (⟨"option", "long", "call", none, some 1⟩ : Row).strike_or_entry = none
    ∧ (loadHandler ([⟨"long", "call", 100, 5⟩], []) none
         = (([⟨"long", "call", 100, 5⟩], []), true)
       ∧ loadHandler ([⟨"long", "call", 100, 5⟩], [])
           (some ([⟨"stock", "buy", "", some 50, some 0⟩]
             ++ ⟨"option", "long", "call", none, some 1⟩ :: []))
         = ((loadLoop [⟨"stock", "buy", "", some 50, some 0⟩] ([], [])).1, true)) :=
  ⟨by decide, rfl,
   C6_amended ([⟨"long", "call", 100, 5⟩], []) [⟨"stock", "buy", "", some 50, some 0⟩]
     ⟨"option", "long", "call", none, some 1⟩ [] (by decide) rfl⟩

/-! ## Claims about the grid resolution boundary and leg removal -/

/-- C7 counterexample: grid construction with resolution `1` does not
fail: the underlying `np.linspace` special-cases `num = 1` and returns
the single-point grid `[s_min]`, so no `InvalidArgument` error exists in
the code (which, moreover, always calls it with resolution `1001`). -/
theorem C7_counterexample : linspace 0 200 1 = [0] := by
  rfl

/-- C7 amended: grid construction with resolution `1` succeeds and
returns the one-point grid `[s_min]` (no `InvalidArgument` failure
exists); with resolution `2` it succeeds and returns exactly
`[s_min, s_max]`; the aggregation engine itself always uses resolution
`1001`. -/
theorem C7_amended (a b : ℚ) :
    linspace a b 1 = [a]
    ∧ linspace a b 2 = [a, b]
    ∧ (plot_strategy [] [] a b).1 = linspace a b 1001 := by
  refine ⟨rfl, ?_, by simp only [plot_strategy]⟩
  unfold linspace
  rw [if_neg (by norm_num), show List.range 2 = [0, 1] from rfl]
  simp only [List.map_cons, List.map_nil]
  norm_num

lemma map_eraseIdx {α β : Type} (f : α → β) : ∀ (l : List α) (k : ℕ),
    (l.map f).eraseIdx k = (l.eraseIdx k).map f
  | [], _ => rfl
  | _ :: _, 0 => rfl
  | x :: xs, k + 1 => by
    simp only [List.map_cons, List.eraseIdx_cons_succ]
    rw [map_eraseIdx f xs k]

/-- C8 counterexample: with one option leg and no stock legs
(`totalLegs = 1`), removal at index `-1` — outside `[0, totalLegs)` —
does not fail: Python's negative indexing wraps around and the option is
deleted. -/
theorem C8_counterexample :
    removeLeg [⟨"long", "call", 100, 5⟩] [] (-1) = some ([], [])
    ∧ ¬ ((0 : ℤ) ≤ -1) := by
  constructor
  · rfl
  · decide

/-- C8 amended: for every non-negative index, removal fails (with
`IndexError`) if and only if the index is at least `totalLegs`, and an
in-range index removes exactly the leg at that position of the combined
options-then-stocks ordering; a negative index is instead resolved
Python-style from the end of a list and may succeed. -/
theorem C8_amended (options : List OptionLeg) (stocks : List Stock) (i : ℤ) (hi : 0 ≤ i) :
    (removeLeg options stocks i = none ↔ (options.length : ℤ) + stocks.length ≤ i)
    ∧ (i < (options.length : ℤ) + stocks.length →
        (removeLeg options stocks i).map (fun st => st.1.map Leg.opt ++ st.2.map Leg.stk)
          = some ((options.map Leg.opt ++ stocks.map Leg.stk).eraseIdx i.toNat)) := by
  by_cases hlt : i < (options.length : ℤ)
  · have hpy : pyDelete options i = some (options.eraseIdx i.toNat) := by
      unfold pyDelete pyIndex
      rw [if_neg (by omega : ¬ i < 0), if_pos ⟨hi, hlt⟩]
    have hrem : removeLeg options stocks i = some (options.eraseIdx i.toNat, stocks) := by
      unfold removeLeg
      rw [if_pos hlt, hpy]
      rfl
    constructor
    · rw [hrem]
      constructor
      · intro h
        cases h
      · intro h
        omega
    · intro _
      rw [hrem, Option.map_some']
      rw [List.eraseIdx_append_of_lt_length (by rw [List.length_map]; omega)]
      rw [map_eraseIdx]
  · by_cases hin : i < (options.length : ℤ) + stocks.length
    · have hpy : pyDelete stocks (i - options.length)
          = some (stocks.eraseIdx (i - options.length).toNat) := by
        unfold pyDelete pyIndex
        rw [if_neg (by omega : ¬ i - (options.length : ℤ) < 0),
          if_pos (⟨by omega, by omega⟩ :
            0 ≤ i - (options.length : ℤ)
            ∧ i - (options.length : ℤ) < (stocks.length : ℤ))]
      have hrem : removeLeg options stocks i
          = some (options, stocks.eraseIdx (i - options.length).toNat) := by
        unfold removeLeg
        rw [if_neg hlt, hpy]
        rfl
      constructor
      · rw [hrem]
        constructor
        · intro h
          cases h
        · intro h
          omega
      · intro _
        rw [hrem, Option.map_some']
        rw [List.eraseIdx_append_of_length_le (by rw [List.length_map]; omega)]
        rw [map_eraseIdx, List.length_map]
        have hsub : (i - (options.length : ℤ)).toNat = i.toNat - options.length := by omega
        rw [hsub]
    · have hpy : pyDelete stocks (i - options.length) = none := by
        unfold pyDelete pyIndex
        rw [if_neg (by omega : ¬ i - (options.length : ℤ) < 0),
          if_neg (by omega :
            ¬ (0 ≤ i - (options.length : ℤ)
               ∧ i - (options.length : ℤ) < (stocks.length : ℤ)))]
      have hrem : removeLeg options stocks i = none := by
        unfold removeLeg
        rw [if_neg hlt, hpy]
        rfl
      exact ⟨⟨fun _ => by omega, fun _ => hrem⟩, fun h => absurd h hin⟩

theorem C8_amended_witness :
    (0 : ℤ) ≤ 0
    ∧ ((removeLeg [⟨"long", "call", 100, 5⟩] [] 0 = none ↔ (1 : ℤ) + 0 ≤ 0)
       ∧ ((0 : ℤ) < (1 : ℤ) + 0 →
           (removeLeg [⟨"long", "call", 100, 5⟩] [] 0).map
               (fun st => st.1.map Leg.opt ++ st.2.map Leg.stk)
             = some (([(⟨"long", "call", 100, 5⟩ : OptionLeg)].map Leg.opt
                 ++ ([] : List Stock).map Leg.stk).eraseIdx (0 : ℤ).toNat))) :=
  ⟨by decide, by exact C8_amended [⟨"long", "call", 100, 5⟩] [] 0 (by decide)⟩
